import Mathlib

/-!
# Verification of the exam-portal core service (`src/services/testService.ts`)

Shallow embedding of the core service of the login-portal repository:
time-window gating, deterministic per-user question shuffling, session-status
persistence, and result scoring/recording.

Modelling conventions:
* JavaScript `Date` instants are milliseconds since the epoch, as `Nat`
  (`Date.getTime()` semantics; comparisons `>=`/`<=` on `Date` compare these).
* Firestore documents are explicit values; an asynchronous read is passed in
  as its outcome (`Except FirestoreError (Option StatusData)`), a write is
  returned as data.  A thrown JS `Error` is the `Except.error` case carrying
  the message string.
* JS numbers in the shuffler are exact: the generator state is a `Nat` below
  233280, and `Math.floor (state / 233280 * (i + 1))` is the natural-number
  division `state * (i + 1) / 233280` (the floor of the exact rational).
* `Math.round` of a non-negative quotient `a / b` (rounding half away from
  zero, i.e. half up for non-negative arguments) is `(2 * a + b) / (2 * b)`
  in natural-number division.
* Fields that a stored Firestore document may lack (the code reads them with
  `|| fallback` / optional chaining) are `Option`-typed in `StatusData`.
-/

namespace TestService

/-- The `TestSettings` interface: exam window configuration.  The source hardcodes
`testStartTime = new Date('2025-08-30T11:36:00')`, a wall-clock instant whose
epoch value depends on the deployment timezone, so the start instant is a
parameter here. -/
structure TestSettings where
  testStartTime : Nat
  testDuration : Nat
  maxTabSwitches : Nat
  isTestActive : Bool
  deriving Repr, DecidableEq

/-- Source `testService.getTestSettings()`: fixed settings (15-minute duration,
threshold of 5 tab switches, active), with the start instant abstracted. -/
def getTestSettings (startMs : Nat) : TestSettings :=
  { testStartTime := startMs
    testDuration := 15
    maxTabSwitches := 5
    isTestActive := true }

/-- Source `testService.isTestAvailable()`: reads the settings, computes
`end = start + 30 * 60 * 1000` and returns `now >= start && now <= end`.
The current instant `now` is passed explicitly. -/
def isTestAvailable (startMs now : Nat) : Bool :=
  let settings := getTestSettings startMs
  let start := settings.testStartTime
  let endTime := start + 30 * 60 * 1000
  decide (start ≤ now) && decide (now ≤ endTime)

/-- Source `testService.getTestEndTime()`: start + 30 minutes. -/
def getTestEndTime (startMs : Nat) : Nat :=
  (getTestSettings startMs).testStartTime + 30 * 60 * 1000

/-- The `TestQuestion` interface. -/
structure TestQuestion where
  id : String
  question : String
  options : List String
  correctAnswer : Nat
  category : String
  deriving Repr, DecidableEq

/-- The `TestAnswer` interface. -/
structure TestAnswer where
  questionId : String
  selectedAnswer : Nat
  isCorrect : Bool
  deriving Repr, DecidableEq

/-- Seed computation in `shuffleQuestions`:
`userId.split('').reduce((acc, char) => acc + char.charCodeAt(0), 0)` —
the sum of the character codes of the user id. -/
def sumCharCodes (userId : String) : Nat :=
  (userId.data.map Char.toNat).sum

/-- One step of the seeded generator in `shuffleQuestions`:
`random = (random * 9301 + 49297) % 233280`. -/
def seededRandomStep (random : Nat) : Nat :=
  (random * 9301 + 49297) % 233280

/-- The swap `[shuffled[i], shuffled[j]] = [shuffled[j], shuffled[i]]` on a
list; out-of-range indices leave the list unchanged (never the case in the
shuffle loop, where `0 ≤ j ≤ i < length`). -/
def listSwap (l : List α) (i j : Nat) : List α :=
  match l[i]?, l[j]? with
  | some a, some b => (l.set i b).set j a
  | _, _ => l

/-- The `for (let i = shuffled.length - 1; i > 0; i--)` loop of
`shuffleQuestions`: at index `i`' + 1 it advances the generator, draws
`j = Math.floor(seededRandom() * (i + 1))` — exactly
`random * (i + 2) / 233280` for current index `i`' + 1 — and swaps. -/
def fisherYatesAux (i random : Nat) (shuffled : List TestQuestion) :
    List TestQuestion :=
  match i with
  | 0 => shuffled
  | i' + 1 =>
    let r := seededRandomStep random
    let j := r * (i' + 2) / 233280
    fisherYatesAux i' r (listSwap shuffled (i' + 1) j)

/-- Source `testService.shuffleQuestions(questions, userId)`: seeds the generator
with the character-code sum of `userId`, copies the list, and runs the
Fisher–Yates loop from `length - 1` down to `1`. -/
def shuffleQuestions (questions : List TestQuestion) (userId : String) :
    List TestQuestion :=
  let seed := sumCharCodes userId
  fisherYatesAux (questions.length - 1) seed questions

/-- Reference shuffle, written from the spec's algorithm description
(§4.2): seed = sum of the character codes of the participant id; generator
`state = (state * 9301 + 49297) mod 233280` returning `state / 233280`;
Fisher–Yates: for index i from (length − 1) down to 1, draw
`j = floor(generator() × (i + 1))` and swap elements i and j.  The descending
index list `[length − 1, …, 1]` is `(List.range (length − 1)).reverse.map (· + 1)`,
and the list/state pair is threaded through a fold. -/
def specShuffleStep (acc : List TestQuestion × Nat) (i : Nat) :
    List TestQuestion × Nat :=
  let state := (acc.2 * 9301 + 49297) % 233280
  let j := state * (i + 1) / 233280
  (listSwap acc.1 i j, state)

/-- Reference shuffle from the spec (see `specShuffleStep`). -/
def shuffleQuestionsSpec (questions : List TestQuestion) (userId : String) :
    List TestQuestion :=
  let seed := (userId.data.map Char.toNat).sum
  let idx := (List.range (questions.length - 1)).reverse.map (· + 1)
  (idx.foldl specShuffleStep (questions, seed)).1

/-- A raw Firestore `userTestStatus` document.  Every field is optional: the
source reads them defensively (`data.hasSubmitted || false`,
`data.tabSwitchCount || 0`, `data.lastActivity?.toDate() || new Date()`). -/
structure StatusData where
  userId : Option String
  hasSubmitted : Option Bool
  submissionDate : Option Nat
  tabSwitchCount : Option Nat
  isTestCancelled : Option Bool
  lastActivity : Option Nat
  deriving Repr, DecidableEq

/-- The default status document the source writes when none exists:
`{userId, hasSubmitted: false, tabSwitchCount: 0, isTestCancelled: false,
lastActivity: new Date()}` (no `submissionDate` field). -/
def defaultStatusData (userId : String) (now : Nat) : StatusData :=
  { userId := some userId
    hasSubmitted := some false
    submissionDate := none
    tabSwitchCount := some 0
    isTestCancelled := some false
    lastActivity := some now }

/-- The `UserTestStatus` interface (the value `getUserTestStatus` returns). -/
structure UserTestStatus where
  userId : String
  hasSubmitted : Bool
  submissionDate : Option Nat
  tabSwitchCount : Nat
  isTestCancelled : Bool
  lastActivity : Nat
  deriving Repr, DecidableEq

/-- The `UserTestStatus` value corresponding to the freshly created default
document. -/
def defaultUserTestStatus (userId : String) (now : Nat) : UserTestStatus :=
  { userId := userId
    hasSubmitted := false
    submissionDate := none
    tabSwitchCount := 0
    isTestCancelled := false
    lastActivity := now }

/-- A Firestore error as the source inspects it: a `code` string
(`'permission-denied'`, `'not-found'`, …) and a `message`. -/
structure FirestoreError where
  code : String
  message : String
  deriving Repr, DecidableEq

/-- Source `testService.getUserTestStatus(userId)`.  The outcome of the
`getDoc(statusRef)` round trip is the `readResult` argument; the returned
pair carries the status handed back to the caller and the document written
by `setDoc`, if any.

* read succeeded and the document exists: parse it with the source's
  fallbacks and return it (no write);
* read succeeded, no document: write the default document and return the
  default status;
* read threw with code `'permission-denied'` or `'not-found'`: same
  create-default-and-return path;
* read threw with any other code: the inner `throw docError` reaches the
  outer catch, which wraps it as
  `Failed to get user test status: ${error.message}`. -/
def getUserTestStatus (userId : String)
    (readResult : Except FirestoreError (Option StatusData)) (now : Nat) :
    Except String (UserTestStatus × Option StatusData) :=
  match readResult with
  | .ok (some data) =>
    .ok ({ userId := userId
           hasSubmitted := data.hasSubmitted.getD false
           submissionDate := data.submissionDate
           tabSwitchCount := data.tabSwitchCount.getD 0
           isTestCancelled := data.isTestCancelled.getD false
           lastActivity := data.lastActivity.getD now }, none)
  | .ok none =>
    .ok (defaultUserTestStatus userId now, some (defaultStatusData userId now))
  | .error docError =>
    if docError.code = "permission-denied" || docError.code = "not-found" then
      .ok (defaultUserTestStatus userId now, some (defaultStatusData userId now))
    else
      .error ("Failed to get user test status: " ++ docError.message)

/-- Source `testService.incrementTabSwitchCount(userId)` on the success path (the
`getDoc` read returned `stored`).  Returns the count handed back to the
caller and the document as persisted:

* document exists: `newCount = (data.tabSwitchCount || 0) + 1`, then
  `updateDoc` merges the new count and `lastActivity` into the document;
* document absent: `setDoc` writes a fresh document with count `1`. -/
def incrementTabSwitchCount (userId : String) (stored : Option StatusData)
    (now : Nat) : Nat × StatusData :=
  match stored with
  | some data =>
    let newCount := data.tabSwitchCount.getD 0 + 1
    (newCount,
      { data with tabSwitchCount := some newCount, lastActivity := some now })
  | none =>
    (1,
      { userId := some userId
        hasSubmitted := some false
        submissionDate := none
        tabSwitchCount := some 1
        isTestCancelled := some false
        lastActivity := some now })

/-- Source `testService.markTestAsSubmitted(userId)` on the success path: if the
document exists, `updateDoc` merges `hasSubmitted: true`,
`submissionDate: now`, `lastActivity: now`; otherwise `setDoc` writes a fresh
submitted document. -/
def markTestAsSubmitted (userId : String) (stored : Option StatusData)
    (now : Nat) : StatusData :=
  match stored with
  | some data =>
    { data with
        hasSubmitted := some true
        submissionDate := some now
        lastActivity := some now }
  | none =>
    { userId := some userId
      hasSubmitted := some true
      submissionDate := some now
      tabSwitchCount := some 0
      isTestCancelled := some false
      lastActivity := some now }

/-- The `status` tag of a `TestResult`. -/
inductive ResultStatus
  | completed
  | inProgress
  | abandoned
  deriving Repr, DecidableEq

/-- The type `Omit<TestResult, 'id'>`: the payload the caller passes to
`submitTestResult`, including a caller-supplied `completedAt`. -/
structure TestResultInput where
  userId : String
  userName : String
  userEmail : String
  admissionNumber : String
  branch : String
  score : Nat
  totalQuestions : Nat
  percentage : Nat
  timeSpent : Nat
  answers : List TestAnswer
  completedAt : Nat
  status : ResultStatus
  deriving Repr, DecidableEq

/-- A store write performed by `submitTestResult`, in order. -/
inductive StoreWrite
  | writeStatus (userId : String) (data : StatusData)
  | addResult (id : String) (data : TestResultInput)
  deriving Repr, DecidableEq

/-- Source `testService.submitTestResult(testResult)` on the success path:
first `await this.markTestAsSubmitted(testResult.userId)` (a status write),
then `addDoc` of `{...testResult, completedAt: new Date()}` (the result
write, with the caller's `completedAt` overwritten by `now`), returning
`docRef.id` — the store-assigned identity `newId`.  `stored` is the status
document the inner `getDoc` of `markTestAsSubmitted` found. -/
def submitTestResult (testResult : TestResultInput)
    (stored : Option StatusData) (now : Nat) (newId : String) :
    String × List StoreWrite :=
  let newStatus := markTestAsSubmitted testResult.userId stored now
  (newId,
    [StoreWrite.writeStatus testResult.userId newStatus,
     StoreWrite.addResult newId { testResult with completedAt := now }])

/-- Rounding `Math.round(num / den)` for non-negative `num` and positive `den`:
round half away from zero, i.e. `⌊(num + den / 2) / den⌋ = (2num + den) / (2den)`
in natural division. -/
def jsRound (num den : Nat) : Nat :=
  (2 * num + den) / (2 * den)

/-- The value `calculateScore` returns.  `percentage = none` models the JS
`NaN` produced by `Math.round((0 / 0) * 100)` when the answer list is empty;
for a non-empty list the quotient is finite and `Math.round` yields an
integer. -/
structure ScoreOutcome where
  score : Nat
  percentage : Option Nat
  deriving Repr, DecidableEq

/-- Source `testService.calculateScore(answers)`:
`score = answers.filter(a => a.isCorrect).length`,
`percentage = Math.round((score / answers.length) * 100)` — `NaN` (here
`none`) when `answers.length = 0`, the exact half-up rounding otherwise. -/
def calculateScore (answers : List TestAnswer) : ScoreOutcome :=
  let correctAnswers := (answers.filter (·.isCorrect)).length
  let totalQuestions := answers.length
  { score := correctAnswers
    percentage :=
      if totalQuestions = 0 then none
      else some (jsRound (correctAnswers * 100) totalQuestions) }

/-- The record `getGradeFromPercentage` returns. -/
structure GradeInfo where
  grade : String
  color : String
  message : String
  deriving Repr, DecidableEq

/-- Source `testService.getGradeFromPercentage(percentage)`: the if/else-if chain
over `>= 90`, `>= 80`, `>= 70`, `>= 60`, `>= 50`, else F. -/
def getGradeFromPercentage (percentage : Int) : GradeInfo :=
  if percentage ≥ 90 then
    { grade := "A+", color := "text-green-400", message := "Outstanding Performance!" }
  else if percentage ≥ 80 then
    { grade := "A", color := "text-green-400", message := "Excellent Work!" }
  else if percentage ≥ 70 then
    { grade := "B+", color := "text-blue-400", message := "Good Performance!" }
  else if percentage ≥ 60 then
    { grade := "B", color := "text-blue-400", message := "Satisfactory!" }
  else if percentage ≥ 50 then
    { grade := "C", color := "text-yellow-400", message := "Needs Improvement!" }
  else
    { grade := "F", color := "text-red-400", message := "Better Luck Next Time!" }

/-- The violation count currently stored for a participant: the document's
`tabSwitchCount` field, `0` when the field or the whole document is absent. -/
def storedTabSwitchCount (stored : Option StatusData) : Nat :=
  (stored.bind StatusData.tabSwitchCount).getD 0

end TestService

namespace TestService

/-! ## Helper lemmas -/

/-- Moving the element at index `k` to the front while writing `x` into its
slot is a permutation of putting `x` at the front. -/
theorem cons_set_perm (l : List α) :
    ∀ (k : Nat) (b x : α), l[k]? = some b →
      (b :: l.set k x).Perm (x :: l) := by
  induction l with
  | nil =>
    intro k b x h
    simp at h
  | cons y t ih =>
    intro k b x h
    cases k with
    | zero =>
      simp only [List.getElem?_cons_zero, Option.some.injEq] at h
      subst h
      simpa using List.Perm.swap x y t
    | succ n =>
      simp only [List.getElem?_cons_succ] at h
      simp only [List.set_cons_succ]
      exact (List.Perm.swap y b _).trans
        (((ih n b x h).cons y).trans (List.Perm.swap x y t))

/-- Swapping two positions of a list is a permutation. -/
theorem listSwap_perm (l : List α) : ∀ i j : Nat, (listSwap l i j).Perm l := by
  induction l with
  | nil =>
    intro i j
    simp [listSwap]
  | cons x t ih =>
    intro i j
    cases i with
    | zero =>
      cases j with
      | zero => simp [listSwap]
      | succ n =>
        cases hb : t[n]? with
        | none => simp [listSwap, hb]
        | some b =>
          simpa [listSwap, hb] using cons_set_perm t n b x hb
    | succ m =>
      cases j with
      | zero =>
        cases ha : t[m]? with
        | none => simp [listSwap, ha]
        | some a =>
          simpa [listSwap, ha] using cons_set_perm t m a x ha
      | succ n =>
        cases ha : t[m]? with
        | none => simp [listSwap, ha]
        | some a =>
          cases hb : t[n]? with
          | none => simp [listSwap, ha, hb]
          | some b =>
            have h := ih m n
            simp only [listSwap, ha, hb] at h
            simpa [listSwap, ha, hb] using h.cons x

/-- Each run of the Fisher–Yates loop permutes its input list. -/
theorem fisherYatesAux_perm :
    ∀ (i random : Nat) (l : List TestQuestion),
      (fisherYatesAux i random l).Perm l := by
  intro i
  induction i with
  | zero =>
    intro random l
    exact List.Perm.refl l
  | succ n ih =>
    intro random l
    simp only [fisherYatesAux]
    exact (ih _ _).trans (listSwap_perm _ _ _)

/-- The spec's fold over the descending index list `[i, …, 1]` computes the
same list as the source's loop. -/
theorem foldl_spec_eq_fisherYatesAux :
    ∀ (i random : Nat) (l : List TestQuestion),
      ((((List.range i).reverse.map (· + 1)).foldl specShuffleStep
        (l, random))).1 = fisherYatesAux i random l := by
  intro i
  induction i with
  | zero =>
    intro random l
    simp [fisherYatesAux]
  | succ n ih =>
    intro random l
    have hr : (List.range (n + 1)).reverse.map (· + 1) =
        (n + 1) :: ((List.range n).reverse.map (· + 1)) := by
      rw [List.range_succ, List.reverse_append]
      simp
    rw [hr, List.foldl_cons]
    rw [ih]
    rfl

end TestService

namespace TestService

/-! ## Claims -/

/-- C1 (counterexample): with configured start `T = 0`, at the instant
`T + 30` minutes the source returns `true` (the comparison is `now <= end`),
so the claim's "returns false at `T + 30` minutes" is false. -/
theorem isTestAvailable_true_at_window_end :
    ¬ (isTestAvailable 0 (0 + 30 * 60 * 1000) = false) := by
  decide

/-- C1 (amended): `isTestAvailable` is true exactly on the closed interval
`[T, T + 30 min]` — true for every instant from `T` up to and including
`T + 30` minutes, false before `T` and false strictly after `T + 30`
minutes. -/
theorem isTestAvailable_closed_interval (startMs now : Nat) :
    isTestAvailable startMs now = true ↔
      startMs ≤ now ∧ now ≤ startMs + 30 * 60 * 1000 := by
  simp [isTestAvailable, getTestSettings]

/-- C2: on the empty answer list the source computes
`Math.round((0 / 0) * 100)`, i.e. `NaN` (modelled as `none`) — not the
well-defined percentage `0` the claim and the spec require. -/
theorem calculateScore_empty_is_nan :
    (calculateScore []).percentage = none ∧
    (calculateScore []).percentage ≠ some 0 := by
  constructor
  · rfl
  · intro h
    simp [calculateScore] at h

/-- C3: `shuffleQuestions` computes exactly the spec's reference algorithm:
character-code-sum seed, LCG `state = (state * 9301 + 49297) mod 233280`,
and a Fisher–Yates pass with `i` from `length − 1` down to `1` and
`j = floor(generator() * (i + 1))`; the outputs agree element for element
on every input list and participant id. -/
theorem shuffleQuestions_eq_spec (questions : List TestQuestion)
    (userId : String) :
    shuffleQuestions questions userId = shuffleQuestionsSpec questions userId := by
  unfold shuffleQuestions shuffleQuestionsSpec sumCharCodes
  exact (foldl_spec_eq_fisherYatesAux _ _ _).symm

/-- C4: for every input list and participant id, the output of
`shuffleQuestions` is a permutation of the input (same length, same
multiset, nothing added, removed, or duplicated), and the empty input
yields the empty sequence. -/
theorem shuffleQuestions_perm (questions : List TestQuestion)
    (userId : String) :
    (shuffleQuestions questions userId).Perm questions ∧
    shuffleQuestions [] userId = [] := by
  constructor
  · exact fisherYatesAux_perm _ _ _
  · rfl

/-- C5: for every non-empty answer list, `calculateScore` returns the count
of answers whose `isCorrect` flag is true as the score, and
`round(score / total * 100)` (half-up, `total` the list length) as the
percentage. -/
theorem calculateScore_nonempty (answers : List TestAnswer)
    (h : answers ≠ []) :
    (calculateScore answers).score = (answers.filter (·.isCorrect)).length ∧
    (calculateScore answers).percentage =
      some (jsRound ((answers.filter (·.isCorrect)).length * 100)
        answers.length) := by
  have hl : answers.length ≠ 0 := fun hc => h (List.length_eq_zero.mp hc)
  constructor
  · rfl
  · simp [calculateScore, hl]

/-- C5 witness: the three-answer list with correctness flags
`[true, false, true]` scores 2 with percentage 67. -/
theorem calculateScore_nonempty_witness :
    ([⟨"1", 0, true⟩, ⟨"2", 1, false⟩, ⟨"3", 2, true⟩] : List TestAnswer) ≠ [] ∧
    (calculateScore [⟨"1", 0, true⟩, ⟨"2", 1, false⟩, ⟨"3", 2, true⟩]).score = 2 ∧
    (calculateScore [⟨"1", 0, true⟩, ⟨"2", 1, false⟩, ⟨"3", 2, true⟩]).percentage =
      some 67 := by
  refine ⟨by decide, ?_, ?_⟩
  · exact (calculateScore_nonempty _ (by decide)).1.trans (by decide)
  · exact (calculateScore_nonempty _ (by decide)).2.trans (by decide)

/-- C6: `getGradeFromPercentage` maps every percentage via inclusive
lower-bound thresholds evaluated from highest to lowest: `≥ 90 → A+`,
`[80, 90) → A`, `[70, 80) → B+`, `[60, 70) → B`, `[50, 60) → C`, and
`< 50 → F`. -/
theorem getGradeFromPercentage_thresholds (percentage : Int) :
    (90 ≤ percentage → (getGradeFromPercentage percentage).grade = "A+") ∧
    (80 ≤ percentage ∧ percentage < 90 →
      (getGradeFromPercentage percentage).grade = "A") ∧
    (70 ≤ percentage ∧ percentage < 80 →
      (getGradeFromPercentage percentage).grade = "B+") ∧
    (60 ≤ percentage ∧ percentage < 70 →
      (getGradeFromPercentage percentage).grade = "B") ∧
    (50 ≤ percentage ∧ percentage < 60 →
      (getGradeFromPercentage percentage).grade = "C") ∧
    (percentage < 50 → (getGradeFromPercentage percentage).grade = "F") := by
  unfold getGradeFromPercentage
  refine ⟨fun h => ?_, fun h => ?_, fun h => ?_, fun h => ?_, fun h => ?_,
    fun h => ?_⟩ <;>
    split_ifs <;> first | rfl | omega

/-- C6 witness: grade(90) = A+, grade(89) = A, grade(50) = C,
grade(49) = F. -/
theorem getGradeFromPercentage_thresholds_witness :
    (getGradeFromPercentage 90).grade = "A+" ∧
    (getGradeFromPercentage 89).grade = "A" ∧
    (getGradeFromPercentage 50).grade = "C" ∧
    (getGradeFromPercentage 49).grade = "F" := by
  refine ⟨(getGradeFromPercentage_thresholds 90).1 (by decide),
    (getGradeFromPercentage_thresholds 89).2.1 ⟨by decide, by decide⟩,
    (getGradeFromPercentage_thresholds 50).2.2.2.2.1 ⟨by decide, by decide⟩,
    (getGradeFromPercentage_thresholds 49).2.2.2.2.2 (by decide)⟩

/-- C7: `getUserTestStatus`: when the record is absent, or the read fails
with a not-found or permission-denied code, it creates and returns the
default record (submitted = false, violation count 0, cancelled = false,
last-activity = now) instead of propagating the error; every other failure
is propagated wrapped as `Failed to get user test status: <message>`, never
swallowed. -/
theorem getUserTestStatus_error_handling (userId : String)
    (readResult : Except FirestoreError (Option StatusData)) (now : Nat) :
    (readResult = .ok none ∨
        (∃ e, readResult = .error e ∧
          (e.code = "permission-denied" ∨ e.code = "not-found")) →
      getUserTestStatus userId readResult now =
        .ok (defaultUserTestStatus userId now,
          some (defaultStatusData userId now))) ∧
    (∀ e, readResult = .error e → e.code ≠ "permission-denied" →
      e.code ≠ "not-found" →
      getUserTestStatus userId readResult now =
        .error ("Failed to get user test status: " ++ e.message)) := by
  constructor
  · rintro (rfl | ⟨e, rfl, he⟩)
    · rfl
    · rcases he with he | he <;> simp [getUserTestStatus, he]
  · rintro e rfl h1 h2
    simp [getUserTestStatus, h1, h2]

/-- C7 witness: an absent record for participant "u1" at instant 5 yields
the default record together with the write creating it. -/
theorem getUserTestStatus_error_handling_witness :
    getUserTestStatus "u1" (.ok none) 5 =
      .ok (defaultUserTestStatus "u1" 5, some (defaultStatusData "u1" 5)) :=
  (getUserTestStatus_error_handling "u1" (.ok none) 5).1 (Or.inl rfl)

/-- C8: `incrementTabSwitchCount` returns one more than the stored count
(absent record ⇒ 0), persists exactly that new count, and yields 1 for a
fresh participant. -/
theorem incrementTabSwitchCount_increments (userId : String)
    (stored : Option StatusData) (now : Nat) :
    (incrementTabSwitchCount userId stored now).1 =
      storedTabSwitchCount stored + 1 ∧
    (incrementTabSwitchCount userId stored now).2.tabSwitchCount =
      some (storedTabSwitchCount stored + 1) ∧
    (incrementTabSwitchCount userId none now).1 = 1 := by
  cases stored <;>
    simp [incrementTabSwitchCount, storedTabSwitchCount, Option.bind]

/-- C9: `submitTestResult` returns the store-assigned identity, and its
writes are, in order: first the status write marking the session submitted
(`hasSubmitted = true`, submission instant = now), then the new result
record whose `completedAt` is forced to the persistence instant `now`,
whatever `completedAt` the caller supplied. -/
theorem submitTestResult_marks_then_persists (testResult : TestResultInput)
    (stored : Option StatusData) (now : Nat) (newId : String) :
    (submitTestResult testResult stored now newId).1 = newId ∧
    (submitTestResult testResult stored now newId).2 =
      [StoreWrite.writeStatus testResult.userId
         (markTestAsSubmitted testResult.userId stored now),
       StoreWrite.addResult newId { testResult with completedAt := now }] ∧
    (markTestAsSubmitted testResult.userId stored now).hasSubmitted =
      some true ∧
    (markTestAsSubmitted testResult.userId stored now).submissionDate =
      some now ∧
    ({ testResult with completedAt := now } : TestResultInput).completedAt =
      now := by
  cases stored <;> simp [submitTestResult, markTestAsSubmitted]

/-- C10: `shuffleQuestions` depends on the participant id only through the
sum of its character codes: equal sums give identical outputs on every
question list. -/
theorem shuffleQuestions_depends_only_on_seed (userId1 userId2 : String)
    (questions : List TestQuestion)
    (h : sumCharCodes userId1 = sumCharCodes userId2) :
    shuffleQuestions questions userId1 = shuffleQuestions questions userId2 := by
  unfold shuffleQuestions
  rw [h]

/-- C10 witness: the anagram ids "ab" and "ba" have equal character-code
sums and produce the same shuffled order on a two-question list. -/
theorem shuffleQuestions_depends_only_on_seed_witness :
    sumCharCodes "ab" = sumCharCodes "ba" ∧
    shuffleQuestions [⟨"1", "q1", ["o"], 0, "c"⟩, ⟨"2", "q2", ["o"], 0, "c"⟩]
        "ab" =
      shuffleQuestions [⟨"1", "q1", ["o"], 0, "c"⟩, ⟨"2", "q2", ["o"], 0, "c"⟩]
        "ba" :=
  ⟨by decide, shuffleQuestions_depends_only_on_seed "ab" "ba" _ (by decide)⟩

end TestService
